import Mathlib

/-!
Shallow embedding of the quant core of the RecommandAi repository:
`src/processors/quant_data.py` (feature pipeline), `src/processors/quant_model.py`
(trainer) and `src/processors/quant_strategy.py` (strategy engine).

Machine floating-point numbers are modelled as exact rationals (`ℚ`);
`pandas`/`numpy` column operations are modelled as list operations with
missing values (`NaN`) made explicit as `Option ℚ`.  Python `round(x, k)`
is modelled by `roundTo k` (round half up; no tie is ever hit in this
development, where Python would round half to even on the binary value).
-/

/- ────────────────────────────────────────────────────────────────────
   quant_data.py — QuantDataPipeline feature lists
   ──────────────────────────────────────────────────────────────────── -/

/-- Source `QuantDataPipeline.BASE_FEATURES`. -/
def BASE_FEATURES : List String :=
  ["return_1d", "return_5d",
   "MA20_ratio", "MA60_ratio", "RSI14", "volume_ratio",
   "revenue_growth_z", "op_income_growth_z", "ROE_z", "debt_ratio_z",
   "sentiment_score", "positive_ratio", "negative_surge"]

/-- Source `QuantDataPipeline.COMBO_FEATURES`. -/
def COMBO_FEATURES : List String := ["MA20_sent_combo"]

/-- Source `QuantDataPipeline.ALL_FEATURES = BASE_FEATURES + COMBO_FEATURES`. -/
def ALL_FEATURES : List String := BASE_FEATURES ++ COMBO_FEATURES

/- ────────────────────────────────────────────────────────────────────
   quant_data.py — compute_technicals
   ──────────────────────────────────────────────────────────────────── -/

/-- Consecutive differences: `deltas xs = [xs[1]-xs[0], xs[2]-xs[1], ...]`,
the non-NaN part of pandas `df["Close"].diff()`. -/
def deltas : List ℚ → List ℚ
  | a :: b :: rest => (b - a) :: deltas (b :: rest)
  | _ => []

/-- Source `gain = delta.clip(lower=0)` (positions 1..n-1 of the column). -/
def gainsOf (closes : List ℚ) : List ℚ := (deltas closes).map (fun d => max d 0)

/-- Source `loss = (-delta).clip(lower=0)` (positions 1..n-1 of the column). -/
def lossesOf (closes : List ℚ) : List ℚ := (deltas closes).map (fun d => max (-d) 0)

/-- Value at index `i` of pandas `ewm(com, adjust=False).mean()` applied to `g`:
`y[0] = g[0]`, `y[i+1] = (1-α)·y[i] + α·g[i+1]` with `α = 1/(1+com)`. -/
def ewmVal (a : ℚ) (g : List ℚ) : ℕ → ℚ
  | 0 => g.getD 0 0
  | i + 1 => (1 - a) * ewmVal a g i + a * g.getD (i + 1) 0

/-- Backward rolling mean of window `n` ending at index `t`
(pandas `rolling(n).mean()` at a row where the window is full). -/
def windowMean (n : ℕ) (xs : List ℚ) (t : ℕ) : ℚ :=
  ((xs.drop (t + 1 - n)).take n).sum / (n : ℚ)

/-- Row `t` of `df["return_1d"] = df["Close"].pct_change(1)`. -/
def return1dAt (closes : List ℚ) (t : ℕ) : Option ℚ :=
  if 1 ≤ t then some (closes.getD t 0 / closes.getD (t - 1) 0 - 1) else none

/-- Row `t` of `df["return_5d"] = df["Close"].pct_change(5)`. -/
def return5dAt (closes : List ℚ) (t : ℕ) : Option ℚ :=
  if 5 ≤ t then some (closes.getD t 0 / closes.getD (t - 5) 0 - 1) else none

/-- Row `t` of `df["MA20_ratio"] = df["Close"] / df["Close"].rolling(20).mean()`
(NaN until the 20-row window is full). -/
def ma20ratioAt (closes : List ℚ) (t : ℕ) : Option ℚ :=
  if 19 ≤ t then some (closes.getD t 0 / windowMean 20 closes t) else none

/-- Row `t` of `df["MA60_ratio"] = df["Close"] / df["Close"].rolling(60).mean()`. -/
def ma60ratioAt (closes : List ℚ) (t : ℕ) : Option ℚ :=
  if 59 ≤ t then some (closes.getD t 0 / windowMean 60 closes t) else none

/-- Row `t` of `df["RSI14"]`: Wilder smoothing, `com=13` so `α = 1/14`;
`rs = avg_gain / avg_loss.replace(0, NaN)`; `RSI = (100 - 100/(1+rs)).fillna(50)`.
Row 0 (NaN delta) and rows with `avg_loss = 0` become 50 via `fillna`. -/
def rsi14At (closes : List ℚ) (t : ℕ) : ℚ :=
  if t = 0 then 50
  else
    let g := ewmVal (1 / 14) (gainsOf closes) (t - 1)
    let l := ewmVal (1 / 14) (lossesOf closes) (t - 1)
    if l = 0 then 50 else 100 - 100 / (1 + g / l)

/-- Row `t` of `df["volume_ratio"] = df["Volume"] / df["Volume"].rolling(20).mean()`. -/
def volumeRatioAt (volumes : List ℚ) (t : ℕ) : Option ℚ :=
  if 19 ≤ t then some (volumes.getD t 0 / windowMean 20 volumes t) else none

/-- The six indicator columns produced by `QuantDataPipeline.compute_technicals`
(the intermediate `MA20`/`MA60` columns live inside the ratio definitions). -/
structure Technicals where
  return_1d : List (Option ℚ)
  return_5d : List (Option ℚ)
  MA20_ratio : List (Option ℚ)
  MA60_ratio : List (Option ℚ)
  RSI14 : List ℚ
  volume_ratio : List (Option ℚ)
deriving DecidableEq

/-- Source `QuantDataPipeline.compute_technicals`, restricted to the `Close`
and `Volume` inputs it reads and the six indicator columns it adds. -/
def compute_technicals (closes volumes : List ℚ) : Technicals where
  return_1d := (List.range closes.length).map (return1dAt closes)
  return_5d := (List.range closes.length).map (return5dAt closes)
  MA20_ratio := (List.range closes.length).map (ma20ratioAt closes)
  MA60_ratio := (List.range closes.length).map (ma60ratioAt closes)
  RSI14 := (List.range closes.length).map (rsi14At closes)
  volume_ratio := (List.range volumes.length).map (volumeRatioAt volumes)

/- ────────────────────────────────────────────────────────────────────
   quant_data.py — create_labels;  quant_model.py — time_series_split
   ──────────────────────────────────────────────────────────────────── -/

/-- One row of the feature table handed to `create_labels` /
`time_series_split`.  `date` is an ordinal trading date, `feats` holds the
values of the feature columns indexed by position (`none` = NaN). -/
structure FRow where
  date : ℕ
  close : ℚ
  feats : List (Option ℚ)
  next_return : Option ℚ := none
  label : Option ℚ := none
deriving DecidableEq

/-- Source `QuantDataPipeline.create_labels`:
`next_return[t] = Close[t+1]/Close[t] - 1` (`shift(-1)`, NaN on the last
row); `label = (next_return > 0).astype(float)` with `label = NaN`
wherever `next_return` is NaN. -/
def create_labels : List FRow → List FRow
  | [] => []
  | [r] => [{ r with next_return := none, label := none }]
  | r :: s :: rest =>
    let nr := s.close / r.close - 1
    { r with next_return := some nr,
             label := some (if 0 < nr then 1 else 0) } :: create_labels (s :: rest)

/-- A row survives `valid = df.dropna(subset=["label"]).dropna(subset=feature_cols)`:
its label and every listed feature column are non-null. -/
def validRow (cs : List ℕ) (r : FRow) : Bool :=
  r.label.isSome && cs.all (fun i => (r.feats.getD i none).isSome)

/-- Source `QuantModelTrainer.time_series_split`: drop invalid rows, then cut
at `t1 = int(n*0.60)` and `t2 = int(n*(0.60+0.20))` (Python float products;
modelled exactly as `⌊3n/5⌋` and `⌊4n/5⌋`), keeping the original row order.
The source additionally projects each block to `(X, y)` arrays; the split
itself is on whole rows. -/
def time_series_split (df : List FRow) (cs : List ℕ) :
    List FRow × List FRow × List FRow :=
  let valid := df.filter (validRow cs)
  let n := valid.length
  let t1 := n * 3 / 5
  let t2 := n * 4 / 5
  (valid.take t1, (valid.drop t1).take (t2 - t1), valid.drop t2)

/- ────────────────────────────────────────────────────────────────────
   quant_model.py — train_and_select
   ──────────────────────────────────────────────────────────────────── -/

/-- Per-model validation metrics kept in `results[name]` (minus the fitted
model object). -/
structure ModelMetrics where
  roc_auc : ℚ
  model_precision : ℚ
  model_recall : ℚ
deriving DecidableEq

/-- The three `{"error": ...}` strings `train_and_select` can return. -/
inductive TrainError
  | insufficientRows (n : ℕ)  -- "학습 데이터 부족 (n < 120)"
  | singleClassLabels         -- "단일 클래스 라벨"
  | allModelsFailed           -- "모든 모델 학습 실패"
deriving DecidableEq

/-- The spec groups the first two errors as `InsufficientTrainingData`. -/
def TrainError.isInsufficientTrainingData : TrainError → Bool
  | .insufficientRows _ => true
  | .singleClassLabels => true
  | .allModelsFailed => false

/-- Successful result `{"best_model_name": ..., "metrics": ...}`. -/
structure TrainResult where
  best_model_name : String
  metrics : List (String × ModelMetrics)
deriving DecidableEq

/-- Source `QuantModelTrainer.MIN_TRAIN`. -/
def MIN_TRAIN : ℕ := 120

/-- Python `max(results, key=lambda k: results[k]["roc_auc"])`: first entry
with the maximal AUC, in iteration order. -/
def pickBest (m : String × ModelMetrics) (ms : List (String × ModelMetrics)) :
    String × ModelMetrics :=
  ms.foldl (fun best r => if best.2.roc_auc < r.2.roc_auc then r else best) m

/-- Source `QuantModelTrainer.train_and_select`.  Everything after the two
guards — `StandardScaler` fit/transform, recency sample weights, the
sklearn/xgboost fits and the validation metrics — is a call into external
libraries, abstracted as the `fitModels` argument (returning one
`(name, metrics)` entry per successfully fitted candidate, in candidate
order).  The guards run before any of that: fewer than `MIN_TRAIN` rows or a
single label class error out first, and an empty fit result yields the
"all models failed" error. -/
def train_and_select
    (fitModels : List (List ℚ) → List ℤ → List (List ℚ) → List ℤ →
      List (String × ModelMetrics))
    (Xtr : List (List ℚ)) (ytr : List ℤ)
    (Xva : List (List ℚ)) (yva : List ℤ) :
    Except TrainError TrainResult :=
  if Xtr.length < MIN_TRAIN then .error (.insufficientRows Xtr.length)
  else if ytr.dedup.length < 2 then .error .singleClassLabels
  else
    match fitModels Xtr ytr Xva yva with
    | [] => .error .allModelsFailed
    | m :: ms => .ok { best_model_name := (pickBest m ms).1, metrics := m :: ms }

/- ────────────────────────────────────────────────────────────────────
   quant_strategy.py — thresholds and the decision rule
   ──────────────────────────────────────────────────────────────────── -/

/-- The sentiment snapshot dict read by `_decide`
(`negative_surge` is the 0/1 integer of the source). -/
structure SentimentInfo where
  sentiment_score : ℚ
  positive_ratio : ℚ
  negative_surge : ℕ
deriving DecidableEq

/-- One threshold dict of `QuantStrategy`. -/
structure Thresholds where
  buy_p_up : ℚ
  buy_rsi_max : ℚ
  buy_sent_min : ℚ
  hold_p_up_min : ℚ
  sell_p_up : ℚ
deriving DecidableEq

/-- Source `QuantStrategy._DEFAULT_TH`. -/
def DEFAULT_TH : Thresholds :=
  { buy_p_up := 6/10, buy_rsi_max := 70, buy_sent_min := 0,
    hold_p_up_min := 45/100, sell_p_up := 45/100 }

/-- Source `QuantStrategy._CONSERVATIVE_TH`. -/
def CONSERVATIVE_TH : Thresholds :=
  { buy_p_up := 65/100, buy_rsi_max := 65, buy_sent_min := 0,
    hold_p_up_min := 50/100, sell_p_up := 50/100 }

/-- Source `QuantStrategy.MDD_LIMIT = 0.15`. -/
def MDD_LIMIT : ℚ := 15/100

/-- Source `QuantStrategy.AVG_WINDOW = 60`. -/
def AVG_WINDOW : ℕ := 60

/-- Source `QuantStrategy._thresholds`. -/
def thresholdsFor (conservative : Bool) : Thresholds :=
  if conservative then CONSERVATIVE_TH else DEFAULT_TH

/-- Source `QuantStrategy._decide`: SELL risk check first, then the
four-way BUY conjunction, else HOLD. -/
def decideSignal (conservative : Bool) (p_up exp_ret rsi : ℚ)
    (sent : SentimentInfo) : String :=
  let th := thresholdsFor conservative
  if p_up < th.sell_p_up ∨ sent.negative_surge ≠ 0 then "SELL"
  else if th.buy_p_up ≤ p_up ∧ 0 < exp_ret ∧ rsi < th.buy_rsi_max ∧
      th.buy_sent_min ≤ sent.sentiment_score then "BUY"
  else "HOLD"

/- ────────────────────────────────────────────────────────────────────
   quant_strategy.py — expected return
   ──────────────────────────────────────────────────────────────────── -/

/-- Consecutive 1-day returns `xs[i+1]/xs[i] - 1`: the non-NaN part of
`recent["Close"].pct_change().dropna()`. -/
def rets1d : List ℚ → List ℚ
  | a :: b :: rest => (b / a - 1) :: rets1d (b :: rest)
  | _ => []

/-- Source `QuantStrategy._expected_return` on the `Close` column:
over the last `AVG_WINDOW` rows (`df.tail(60)`), `avg_gain` is the mean of
the strictly positive 1-day returns (`0.001` if none), `avg_loss` is
`abs(mean)` of the non-positive ones (`0.001` if none); returns
`(avg_gain, avg_loss, p_up·avg_gain − (1−p_up)·avg_loss)`. -/
def expected_return (closes : List ℚ) (p_up : ℚ) : ℚ × ℚ × ℚ :=
  let recent := closes.drop (closes.length - AVG_WINDOW)
  let ret := rets1d recent
  let up := ret.filter (fun r => 0 < r)
  let down := ret.filter (fun r => r ≤ 0)
  let avg_gain := if up.length ≠ 0 then up.sum / (up.length : ℚ) else 1/1000
  let avg_loss := if down.length ≠ 0 then |down.sum / (down.length : ℚ)| else 1/1000
  (avg_gain, avg_loss, p_up * avg_gain - (1 - p_up) * avg_loss)

/- ────────────────────────────────────────────────────────────────────
   quant_strategy.py — evolution state and self_improve
   ──────────────────────────────────────────────────────────────────── -/

/-- One trade-history entry, restricted to the fields `self_improve`
reads (`timestamp`, `ticker`, `p_up`, `expected_return` are carried along
but never consulted by it). -/
structure LedgerEntry where
  ticker : String
  decision : String
  p_up : ℚ
  expected_return : ℚ
  actual_return : Option ℚ
deriving DecidableEq

/-- The `mdd_tracker` sub-dict of the evolution state. -/
structure MddTracker where
  peak : ℚ
  current : ℚ
  max_drawdown : ℚ
  conservative_mode : Bool
deriving DecidableEq

/-- One `performance_history` record (timestamp omitted). -/
structure PerfRecord where
  gen : ℕ
  accuracy : ℚ
  mdd : ℚ
  n_trades : ℕ
deriving DecidableEq

/-- The persisted evolution state (`last_updated` timestamp omitted).
`feature_weights` is an insertion-ordered association list, mirroring the
Python dict. -/
structure EvolutionState where
  generation : ℕ
  feature_weights : List (String × ℚ)
  active_features : List String
  mdd_tracker : MddTracker
  performance_history : List PerfRecord
deriving DecidableEq

/-- Source `QuantStrategy._init_evolution`: all weights 1.0 over
`ALL_FEATURES`, active set = `BASE_FEATURES` (combo features start
inactive), neutral MDD tracker. -/
def init_evolution : EvolutionState :=
  { generation := 0,
    feature_weights := ALL_FEATURES.map (fun f => (f, 1)),
    active_features := BASE_FEATURES,
    mdd_tracker := { peak := 1, current := 1, max_drawdown := 0,
                     conservative_mode := false },
    performance_history := [] }

/-- Python `round(x, k)` on our rationals: round half up to `k` decimal
places (Python rounds the binary double half to even; no tie occurs at any
value computed in this development). -/
def roundTo (k : ℕ) (x : ℚ) : ℚ := (⌊x * 10 ^ k + 1/2⌋ : ℤ) / 10 ^ k

/-- One iteration of the MDD loop of `self_improve`, on `(cum, peak, mdd)`. -/
def mddStep (acc : ℚ × ℚ × ℚ) (r : ℚ) : ℚ × ℚ × ℚ :=
  let cum := acc.1 * (1 + r)
  let peak := max acc.2.1 cum
  (cum, peak, max acc.2.2 ((peak - cum) / peak))

/-- The MDD loop: walk the returns in ledger order starting from
`cum = peak = 1.0, mdd = 0.0`. -/
def mddFold (rets : List ℚ) : ℚ × ℚ × ℚ := rets.foldl mddStep (1, 1, 0)

/-- `completed = [t for t in history if t.get("actual_return") is not None]`. -/
def completedOf (ledger : List LedgerEntry) : List LedgerEntry :=
  ledger.filter (fun t => t.actual_return.isSome)

/-- The `actual_return` of a completed entry. -/
def aret (t : LedgerEntry) : ℚ := t.actual_return.getD 0

/-- The predicate counted into `correct`: BUY with a positive realized
return, or SELL with a negative one. -/
def isCorrect (t : LedgerEntry) : Bool :=
  (t.decision = "BUY" ∧ 0 < aret t) ∨ (t.decision = "SELL" ∧ aret t < 0)

/-- Stable insertion for a descending sort by weight: a later element is
placed after every earlier element of equal weight, matching Python
`sorted(fw.items(), key=lambda x: x[1], reverse=True)`. -/
def insertDesc (x : String × ℚ) : List (String × ℚ) → List (String × ℚ)
  | [] => [x]
  | y :: ys => if y.2 ≤ x.2 then x :: y :: ys else y :: insertDesc x ys

/-- Stable descending sort by weight (`sorted(..., reverse=True)`). -/
def sortByWeightDesc (l : List (String × ℚ)) : List (String × ℚ) :=
  l.foldr insertDesc []

/-- Source `QuantStrategy.self_improve`, as a function from the prior
evolution state and the trade ledger to the new state plus a flag telling
whether the state file was (re)written.  Fewer than 5 completed entries:
log-and-return, nothing mutated, nothing persisted.  Otherwise: MDD loop,
conservative flag from the unrounded MDD, accuracy over all completed
entries, weight rescale (rounded to 3 decimals as in the source), active
set recomputed from the new weights (floor 0.30, top-3 fallback, combo
activation when accuracy > 0.55), generation bump and history append. -/
def self_improve (st : EvolutionState) (ledger : List LedgerEntry) :
    EvolutionState × Bool :=
  let completed := completedOf ledger
  if completed.length < 5 then (st, false)
  else
    let m := mddFold (completed.map aret)
    let conservative : Bool := MDD_LIMIT ≤ m.2.2
    let correct := completed.countP isCorrect
    let accuracy : ℚ := (correct : ℚ) / (completed.length : ℚ)
    let scale : ℚ := if 6/10 < accuracy then 11/10
      else if accuracy < 4/10 then 9/10 else 1
    let fw := st.feature_weights.map (fun p => (p.1, roundTo 3 (p.2 * scale)))
    let active0 := (fw.filter (fun p => 3/10 ≤ p.2)).map (fun p => p.1)
    let active1 := if active0.length < 3
      then ((sortByWeightDesc fw).take 3).map (fun p => p.1)
      else active0
    let active := if 55/100 < accuracy ∧ "MA20_sent_combo" ∉ active1
      then active1 ++ ["MA20_sent_combo"]
      else active1
    ({ generation := st.generation + 1,
       feature_weights := fw,
       active_features := active,
       mdd_tracker := { peak := roundTo 6 m.2.1, current := roundTo 6 m.1,
                        max_drawdown := roundTo 4 m.2.2,
                        conservative_mode := conservative },
       performance_history := st.performance_history ++
         [{ gen := st.generation + 1, accuracy := roundTo 4 accuracy,
            mdd := roundTo 4 m.2.2, n_trades := completed.length }] },
     true)

/- ────────────────────────────────────────────────────────────────────
   Helper lemmas
   ──────────────────────────────────────────────────────────────────── -/

/-- Reading inside a prefix agrees with reading the full list. -/
theorem getD_take (xs : List ℚ) (m t : ℕ) (d : ℚ) (h : t < m) :
    (xs.take m).getD t d = xs.getD t d := by
  rw [List.getD_eq_getElem?_getD, List.getD_eq_getElem?_getD, List.getElem?_take, if_pos h]

/-- A full backward window taken inside a prefix agrees with the window of
the full list. -/
theorem windowMean_take (n : ℕ) (xs : List ℚ) (t m : ℕ) (hn : n ≤ t + 1) (h : t < m) :
    windowMean n (xs.take m) t = windowMean n xs t := by
  unfold windowMean
  rw [List.drop_take, List.take_take]
  have hmin : min n (m - (t + 1 - n)) = n := by omega
  rw [hmin]

/-- Differences of a prefix are a prefix of the differences. -/
theorem deltas_take : ∀ (xs : List ℚ) (m : ℕ), deltas (xs.take m) = (deltas xs).take (m - 1)
  | [], m => by simp [deltas]
  | [a], m => by
    cases m with
    | zero => simp [deltas]
    | succ k => simp [deltas]
  | a :: b :: rest, 0 => by simp [deltas]
  | a :: b :: rest, 1 => by simp [deltas]
  | a :: b :: rest, (k + 2) => by
    have ih := deltas_take (b :: rest) (k + 1)
    simp only [List.take_succ_cons, deltas] at ih ⊢
    rw [ih]
    simp

/-- The exponentially weighted recursion only reads indices up to `i`. -/
theorem ewmVal_take (a : ℚ) (g : List ℚ) (k : ℕ) :
    ∀ i, i < k → ewmVal a (g.take k) i = ewmVal a g i := by
  intro i
  induction i with
  | zero => intro h; simp only [ewmVal]; rw [getD_take _ _ _ _ h]
  | succ j ih =>
    intro h
    simp only [ewmVal]
    rw [getD_take _ _ _ _ h, ih (by omega)]

theorem return1dAt_take (closes : List ℚ) (t m : ℕ) (h : t < m) :
    return1dAt (closes.take m) t = return1dAt closes t := by
  unfold return1dAt
  split
  · rw [getD_take _ _ _ _ h, getD_take _ _ _ _ (by omega : t - 1 < m)]
  · rfl

theorem return5dAt_take (closes : List ℚ) (t m : ℕ) (h : t < m) :
    return5dAt (closes.take m) t = return5dAt closes t := by
  unfold return5dAt
  split
  · rw [getD_take _ _ _ _ h, getD_take _ _ _ _ (by omega : t - 5 < m)]
  · rfl

theorem ma20ratioAt_take (closes : List ℚ) (t m : ℕ) (h : t < m) :
    ma20ratioAt (closes.take m) t = ma20ratioAt closes t := by
  unfold ma20ratioAt
  split
  · next h19 =>
    rw [getD_take _ _ _ _ h, windowMean_take 20 closes t m (by omega) h]
  · rfl

theorem ma60ratioAt_take (closes : List ℚ) (t m : ℕ) (h : t < m) :
    ma60ratioAt (closes.take m) t = ma60ratioAt closes t := by
  unfold ma60ratioAt
  split
  · next h59 =>
    rw [getD_take _ _ _ _ h, windowMean_take 60 closes t m (by omega) h]
  · rfl

theorem volumeRatioAt_take (volumes : List ℚ) (t m : ℕ) (h : t < m) :
    volumeRatioAt (volumes.take m) t = volumeRatioAt volumes t := by
  unfold volumeRatioAt
  split
  · next h19 =>
    rw [getD_take _ _ _ _ h, windowMean_take 20 volumes t m (by omega) h]
  · rfl

theorem gainsOf_take (closes : List ℚ) (m : ℕ) :
    gainsOf (closes.take m) = (gainsOf closes).take (m - 1) := by
  unfold gainsOf
  rw [deltas_take, List.map_take]

theorem lossesOf_take (closes : List ℚ) (m : ℕ) :
    lossesOf (closes.take m) = (lossesOf closes).take (m - 1) := by
  unfold lossesOf
  rw [deltas_take, List.map_take]

theorem rsi14At_take (closes : List ℚ) (t m : ℕ) (h : t < m) :
    rsi14At (closes.take m) t = rsi14At closes t := by
  unfold rsi14At
  split
  · rfl
  · next ht0 =>
    rw [gainsOf_take, lossesOf_take,
      ewmVal_take _ _ _ _ (by omega : t - 1 < m - 1),
      ewmVal_take _ _ _ _ (by omega : t - 1 < m - 1)]

/-- An indicator column built by mapping a row function over the row range
is stable under truncation as soon as the row function is. -/
theorem seriesGet {α : Type} (f : List ℚ → ℕ → α) (xs : List ℚ) (t m : ℕ) (h : t < m)
    (stab : f (xs.take m) t = f xs t) :
    ((List.range (xs.take m).length).map (f (xs.take m)))[t]? =
      ((List.range xs.length).map (f xs))[t]? := by
  rcases lt_or_ge t xs.length with h1 | h1
  · have h2 : t < (xs.take m).length := by
      rw [List.length_take]
      omega
    rw [List.getElem?_map, List.getElem?_map, List.getElem?_range h2, List.getElem?_range h1]
    simp [stab]
  · have h2 : (xs.take m).length ≤ t := by
      rw [List.length_take]
      omega
    rw [List.getElem?_map, List.getElem?_map,
      List.getElem?_eq_none (by simpa using h2), List.getElem?_eq_none (by simpa using h1)]
    rfl

/-- The labelled table is nonempty whenever the input table is, and its
last row carries no `next_return` and no `label`. -/
theorem create_labels_getLast (df : List FRow) (h : df ≠ []) :
    ∃ last, (create_labels df).getLast? = some last ∧
      last.label = none ∧ last.next_return = none := by
  match df with
  | [] => exact absurd rfl h
  | [r] =>
    exact ⟨{ r with next_return := none, label := none }, by simp [create_labels], rfl, rfl⟩
  | r :: s :: rest =>
    obtain ⟨last, hl, h1, h2⟩ := create_labels_getLast (s :: rest) (by simp)
    refine ⟨last, ?_, h1, h2⟩
    rw [create_labels, List.getLast?_cons, hl]
    simp

/-- Every row of every split block passed the `validRow` filter. -/
theorem mem_split_valid (df : List FRow) (cs : List ℕ) (r : FRow)
    (h : r ∈ (time_series_split df cs).1 ∨ r ∈ (time_series_split df cs).2.1 ∨
      r ∈ (time_series_split df cs).2.2) :
    r.label.isSome = true ∧ ∀ i ∈ cs, (r.feats.getD i none).isSome = true := by
  have hv : r ∈ df.filter (validRow cs) := by
    rcases h with h | h | h
    · exact List.take_subset _ _ h
    · exact List.drop_subset _ _ (List.take_subset _ _ h)
    · exact List.drop_subset _ _ h
  have hvr := (List.mem_filter.mp hv).2
  simp only [validRow, Bool.and_eq_true, List.all_eq_true] at hvr
  exact ⟨hvr.1, fun i hi => hvr.2 i hi⟩

/-- The absolute value of the sum of non-positive rationals is the sum of
their absolute values. -/
theorem sum_abs_of_nonpos (l : List ℚ) (h : ∀ r ∈ l, r ≤ 0) :
    |l.sum| = (l.map (fun r => |r|)).sum := by
  induction l with
  | nil => simp
  | cons a t ih =>
    have ha : a ≤ 0 := h a (by simp)
    have ht : ∀ r ∈ t, r ≤ 0 := fun r hr => h r (by simp [hr])
    have hts : t.sum ≤ 0 := by
      clear ih h ha
      induction t with
      | nil => simp
      | cons b u ihu =>
        have hb := ht b (by simp)
        have hu := ihu (fun r hr => ht r (by simp [hr]))
        simp only [List.sum_cons]
        linarith
    simp only [List.sum_cons, List.map_cons]
    rw [← ih ht, abs_of_nonpos (by linarith), abs_of_nonpos ha, abs_of_nonpos hts]
    ring

/- ────────────────────────────────────────────────────────────────────
   Claim theorems
   ──────────────────────────────────────────────────────────────────── -/

/-- C1: in both modes the decision is a function of `(p_up, E[R], RSI14,
sentiment)` through the mode's threshold set, evaluated in strict priority
order: it is SELL exactly when `p_up < sell_p_up` or `negative_surge` is
set (regardless of the BUY conditions), it is BUY exactly when the SELL
condition fails and all four BUY conditions hold, and HOLD otherwise; the
NORMAL thresholds are (0.45, 0.60, 70, 0.0) and the CONSERVATIVE ones
(0.50, 0.65, 65, 0.0). -/
theorem decide_policy_priority :
    (DEFAULT_TH.sell_p_up = 45/100 ∧ DEFAULT_TH.buy_p_up = 60/100 ∧
     DEFAULT_TH.buy_rsi_max = 70 ∧ DEFAULT_TH.buy_sent_min = 0 ∧
     CONSERVATIVE_TH.sell_p_up = 50/100 ∧ CONSERVATIVE_TH.buy_p_up = 65/100 ∧
     CONSERVATIVE_TH.buy_rsi_max = 65 ∧ CONSERVATIVE_TH.buy_sent_min = 0) ∧
    ∀ (c : Bool) (p e r : ℚ) (s : SentimentInfo),
      (decideSignal c p e r s = "SELL" ↔
        p < (thresholdsFor c).sell_p_up ∨ s.negative_surge ≠ 0) ∧
      (decideSignal c p e r s = "BUY" ↔
        ¬(p < (thresholdsFor c).sell_p_up ∨ s.negative_surge ≠ 0) ∧
        ((thresholdsFor c).buy_p_up ≤ p ∧ 0 < e ∧ r < (thresholdsFor c).buy_rsi_max ∧
         (thresholdsFor c).buy_sent_min ≤ s.sentiment_score)) ∧
      (decideSignal c p e r s = "HOLD" ↔
        ¬(p < (thresholdsFor c).sell_p_up ∨ s.negative_surge ≠ 0) ∧
        ¬((thresholdsFor c).buy_p_up ≤ p ∧ 0 < e ∧ r < (thresholdsFor c).buy_rsi_max ∧
          (thresholdsFor c).buy_sent_min ≤ s.sentiment_score)) := by
  refine ⟨⟨by norm_num [DEFAULT_TH], by norm_num [DEFAULT_TH], rfl, rfl,
    by norm_num [CONSERVATIVE_TH], by norm_num [CONSERVATIVE_TH], rfl, rfl⟩, ?_⟩
  intro c p e r s
  have hsb : ("SELL" : String) ≠ "BUY" := by decide
  have hsh : ("SELL" : String) ≠ "HOLD" := by decide
  have hbh : ("BUY" : String) ≠ "HOLD" := by decide
  simp only [decideSignal]
  split_ifs with h1 h2 <;>
    simp_all [hsb, hsh, hbh, hsb.symm, hsh.symm, hbh.symm]

/-- C2: no look-ahead in `compute_technicals`: for every row index `t` and
every truncation length `m > t`, each of the six indicator columns agrees
at row `t` between the truncated table and the full table — in particular
(`m = t+1`) with the prefix ending at row `t` itself. -/
theorem compute_technicals_no_lookahead (closes volumes : List ℚ) (t m : ℕ)
    (h : t < m) :
    ((compute_technicals (closes.take m) (volumes.take m)).return_1d)[t]? =
      ((compute_technicals closes volumes).return_1d)[t]? ∧
    ((compute_technicals (closes.take m) (volumes.take m)).return_5d)[t]? =
      ((compute_technicals closes volumes).return_5d)[t]? ∧
    ((compute_technicals (closes.take m) (volumes.take m)).MA20_ratio)[t]? =
      ((compute_technicals closes volumes).MA20_ratio)[t]? ∧
    ((compute_technicals (closes.take m) (volumes.take m)).MA60_ratio)[t]? =
      ((compute_technicals closes volumes).MA60_ratio)[t]? ∧
    ((compute_technicals (closes.take m) (volumes.take m)).RSI14)[t]? =
      ((compute_technicals closes volumes).RSI14)[t]? ∧
    ((compute_technicals (closes.take m) (volumes.take m)).volume_ratio)[t]? =
      ((compute_technicals closes volumes).volume_ratio)[t]? := by
  unfold compute_technicals
  exact ⟨seriesGet _ _ _ _ h (return1dAt_take closes t m h),
    seriesGet _ _ _ _ h (return5dAt_take closes t m h),
    seriesGet _ _ _ _ h (ma20ratioAt_take closes t m h),
    seriesGet _ _ _ _ h (ma60ratioAt_take closes t m h),
    seriesGet _ _ _ _ h (rsi14At_take closes t m h),
    seriesGet _ _ _ _ h (volumeRatioAt_take volumes t m h)⟩

/-- Witness for C2 at `closes = [1,2,3]`, `volumes = [4,5,6]`, `t = 1`,
`m = 2`. -/
theorem compute_technicals_no_lookahead_witness :
    ((compute_technicals ([1, 2, 3].take 2) ([4, 5, 6].take 2)).return_1d)[1]? =
      ((compute_technicals [1, 2, 3] [4, 5, 6]).return_1d)[1]? ∧
    ((compute_technicals ([1, 2, 3].take 2) ([4, 5, 6].take 2)).return_5d)[1]? =
      ((compute_technicals [1, 2, 3] [4, 5, 6]).return_5d)[1]? ∧
    ((compute_technicals ([1, 2, 3].take 2) ([4, 5, 6].take 2)).MA20_ratio)[1]? =
      ((compute_technicals [1, 2, 3] [4, 5, 6]).MA20_ratio)[1]? ∧
    ((compute_technicals ([1, 2, 3].take 2) ([4, 5, 6].take 2)).MA60_ratio)[1]? =
      ((compute_technicals [1, 2, 3] [4, 5, 6]).MA60_ratio)[1]? ∧
    ((compute_technicals ([1, 2, 3].take 2) ([4, 5, 6].take 2)).RSI14)[1]? =
      ((compute_technicals [1, 2, 3] [4, 5, 6]).RSI14)[1]? ∧
    ((compute_technicals ([1, 2, 3].take 2) ([4, 5, 6].take 2)).volume_ratio)[1]? =
      ((compute_technicals [1, 2, 3] [4, 5, 6]).volume_ratio)[1]? :=
  compute_technicals_no_lookahead [1, 2, 3] [4, 5, 6] 1 2 (by decide)

/-- C3: on a non-empty table, the last row produced by `create_labels` has
null `next_return` and null `label`, and no row of any `time_series_split`
block has a null label — so the last row never enters train, validation or
test. -/
theorem create_labels_last_row_excluded (df : List FRow) (cs : List ℕ) (h : df ≠ []) :
    (∃ last, (create_labels df).getLast? = some last ∧
      last.label = none ∧ last.next_return = none) ∧
    (∀ r, (r ∈ (time_series_split (create_labels df) cs).1 ∨
        r ∈ (time_series_split (create_labels df) cs).2.1 ∨
        r ∈ (time_series_split (create_labels df) cs).2.2) →
      r.label.isSome = true) :=
  ⟨create_labels_getLast df h,
   fun r hr => (mem_split_valid (create_labels df) cs r hr).1⟩

/-- Witness for C3 on a concrete two-row table. -/
theorem create_labels_last_row_excluded_witness :
    (∃ last, (create_labels [⟨0, 100, [], none, none⟩,
        ⟨1, 102, [], none, none⟩]).getLast? = some last ∧
      last.label = none ∧ last.next_return = none) ∧
    (∀ r, (r ∈ (time_series_split (create_labels [⟨0, 100, [], none, none⟩,
          ⟨1, 102, [], none, none⟩]) []).1 ∨
        r ∈ (time_series_split (create_labels [⟨0, 100, [], none, none⟩,
          ⟨1, 102, [], none, none⟩]) []).2.1 ∨
        r ∈ (time_series_split (create_labels [⟨0, 100, [], none, none⟩,
          ⟨1, 102, [], none, none⟩]) []).2.2) →
      r.label.isSome = true) :=
  create_labels_last_row_excluded
    [⟨0, 100, [], none, none⟩, ⟨1, 102, [], none, none⟩] []
    (List.cons_ne_nil _ _)

/-- C4: for a chronologically ordered table, `time_series_split` drops
exactly the rows failing the null checks, keeps the survivors in order (the
three blocks concatenate back to the filtered table), cuts them into
contiguous 60% / 20% / 20% blocks by row count, and every train date is at
most every validation date, which is at most every test date. -/
theorem time_series_split_chronological (df : List FRow) (cs : List ℕ)
    (hs : df.Pairwise (fun a b => a.date ≤ b.date)) :
    (time_series_split df cs).1 ++ (time_series_split df cs).2.1 ++
      (time_series_split df cs).2.2 = df.filter (validRow cs) ∧
    (time_series_split df cs).1.length = (df.filter (validRow cs)).length * 3 / 5 ∧
    (time_series_split df cs).2.1.length =
      (df.filter (validRow cs)).length * 4 / 5 -
      (df.filter (validRow cs)).length * 3 / 5 ∧
    (time_series_split df cs).2.2.length =
      (df.filter (validRow cs)).length - (df.filter (validRow cs)).length * 4 / 5 ∧
    (∀ r, (r ∈ (time_series_split df cs).1 ∨ r ∈ (time_series_split df cs).2.1 ∨
        r ∈ (time_series_split df cs).2.2) →
      r.label.isSome = true ∧ ∀ i ∈ cs, (r.feats.getD i none).isSome = true) ∧
    (∀ a ∈ (time_series_split df cs).1, ∀ b ∈ (time_series_split df cs).2.1,
      a.date ≤ b.date) ∧
    (∀ a ∈ (time_series_split df cs).1, ∀ b ∈ (time_series_split df cs).2.2,
      a.date ≤ b.date) ∧
    (∀ a ∈ (time_series_split df cs).2.1, ∀ b ∈ (time_series_split df cs).2.2,
      a.date ≤ b.date) := by
  have hmem := mem_split_valid df cs
  simp only [time_series_split]
  set valid := df.filter (validRow cs) with hv
  set n := valid.length with hn
  have ht1n : n * 3 / 5 ≤ n := by
    calc n * 3 / 5 ≤ n * 5 / 5 := Nat.div_le_div_right (by omega)
    _ = n := Nat.mul_div_cancel n (by omega)
  have ht2n : n * 4 / 5 ≤ n := by
    calc n * 4 / 5 ≤ n * 5 / 5 := Nat.div_le_div_right (by omega)
    _ = n := Nat.mul_div_cancel n (by omega)
  have ht12 : n * 3 / 5 ≤ n * 4 / 5 := Nat.div_le_div_right (by omega)
  have hsplit : valid.take (n * 3 / 5) ++
      ((valid.drop (n * 3 / 5)).take (n * 4 / 5 - n * 3 / 5) ++
        (valid.drop (n * 4 / 5))) = valid := by
    have h1 : valid.drop (n * 4 / 5) =
        (valid.drop (n * 3 / 5)).drop (n * 4 / 5 - n * 3 / 5) := by
      rw [List.drop_drop]
      congr 1
      omega
    rw [h1, List.take_append_drop, List.take_append_drop]
  have hpv : valid.Pairwise (fun a b => a.date ≤ b.date) := hs.filter _
  refine ⟨by rw [List.append_assoc]; exact hsplit, ?_, ?_, ?_, ?_, ?_, ?_, ?_⟩
  · rw [List.length_take]
    omega
  · rw [List.length_take, List.length_drop]
    omega
  · rw [List.length_drop]
  · exact fun r hr => hmem r (by simpa [time_series_split] using hr)
  all_goals rw [← hsplit, List.pairwise_append] at hpv
  all_goals obtain ⟨hp1, hp2, hp12⟩ := hpv
  all_goals rw [List.pairwise_append] at hp2
  all_goals obtain ⟨hp2a, hp2b, hp23⟩ := hp2
  · exact fun a ha b hb => hp12 a ha b (List.mem_append_left _ hb)
  · exact fun a ha b hb => hp12 a ha b (List.mem_append_right _ hb)
  · exact hp23

/-- Witness for C4 on a concrete sorted two-row table. -/
theorem time_series_split_chronological_witness :
    (time_series_split [⟨0, 100, [], none, some 1⟩, ⟨1, 102, [], none, some 0⟩] []).1 ++
      (time_series_split [⟨0, 100, [], none, some 1⟩, ⟨1, 102, [], none, some 0⟩] []).2.1 ++
      (time_series_split [⟨0, 100, [], none, some 1⟩, ⟨1, 102, [], none, some 0⟩] []).2.2 =
      List.filter (validRow [])
        [⟨0, 100, [], none, some 1⟩, ⟨1, 102, [], none, some 0⟩] :=
  (time_series_split_chronological
    [⟨0, 100, [], none, some 1⟩, ⟨1, 102, [], none, some 0⟩] []
    (by simp [List.pairwise_cons])).1

/-- C5: when `self_improve` proceeds (≥ 5 completed entries), the MDD
tracker is exactly the result of the compounding walk `mddFold` over the
completed returns in ledger order — conservative mode turns on exactly when
the walked maximum drawdown reaches 0.15 — and on the synthetic return path
`[+0.10, −0.05, −0.20, +0.05]` that walk yields `max_drawdown = 0.24`,
which is above the 0.15 limit. -/
theorem self_improve_mdd_tracker (st : EvolutionState) (ledger : List LedgerEntry)
    (h : 5 ≤ (completedOf ledger).length) :
    ((self_improve st ledger).1.mdd_tracker.conservative_mode = true ↔
      MDD_LIMIT ≤ (mddFold ((completedOf ledger).map aret)).2.2) ∧
    (self_improve st ledger).1.mdd_tracker.max_drawdown =
      roundTo 4 (mddFold ((completedOf ledger).map aret)).2.2 ∧
    (self_improve st ledger).1.mdd_tracker.peak =
      roundTo 6 (mddFold ((completedOf ledger).map aret)).2.1 ∧
    (self_improve st ledger).1.mdd_tracker.current =
      roundTo 6 (mddFold ((completedOf ledger).map aret)).1 ∧
    (mddFold [1/10, -1/20, -1/5, 1/20]).2.2 = 6/25 ∧
    MDD_LIMIT ≤ (6 : ℚ)/25 := by
  unfold self_improve
  rw [if_neg (by omega)]
  refine ⟨?_, rfl, rfl, rfl, by norm_num [mddFold, mddStep], by norm_num [MDD_LIMIT]⟩
  simp [decide_eq_true_iff]

/-- Witness for C5: a five-entry ledger realizing the synthetic path (plus
one neutral completed return) drives conservative mode on. -/
theorem self_improve_mdd_tracker_witness :
    (self_improve init_evolution
      [⟨"A", "BUY", 1/2, 0, some (1/10)⟩, ⟨"A", "BUY", 1/2, 0, some (-1/20)⟩,
       ⟨"A", "BUY", 1/2, 0, some (-1/5)⟩, ⟨"A", "BUY", 1/2, 0, some (1/20)⟩,
       ⟨"A", "HOLD", 1/2, 0, some 0⟩]).1.mdd_tracker.conservative_mode = true := by
  have h := self_improve_mdd_tracker init_evolution
    [⟨"A", "BUY", 1/2, 0, some (1/10)⟩, ⟨"A", "BUY", 1/2, 0, some (-1/20)⟩,
     ⟨"A", "BUY", 1/2, 0, some (-1/5)⟩, ⟨"A", "BUY", 1/2, 0, some (1/20)⟩,
     ⟨"A", "HOLD", 1/2, 0, some 0⟩] (by decide)
  exact h.1.mpr (by norm_num [completedOf, aret, mddFold, mddStep, MDD_LIMIT, List.filter])

/-- C6 counterexample: starting from weight `1.331` (reachable after three
improving generations) and a ledger with accuracy 1.0, the updated weight
is `1.464`, not `1.331 × 1.10 = 1.4641`: the source rounds each updated
weight to 3 decimal places, so weights are not multiplied by exactly 1.10. -/
theorem self_improve_weight_rounding_cx :
    (self_improve { init_evolution with feature_weights := [("return_1d", 1331/1000)] }
      [⟨"A", "BUY", 1/2, 0, some (1/10)⟩, ⟨"A", "BUY", 1/2, 0, some (1/10)⟩,
       ⟨"A", "BUY", 1/2, 0, some (1/10)⟩, ⟨"A", "BUY", 1/2, 0, some (1/10)⟩,
       ⟨"A", "BUY", 1/2, 0, some (1/10)⟩]).1.feature_weights =
      [("return_1d", 183/125)] ∧
    (183 : ℚ)/125 ≠ 1331/1000 * (11/10) := by
  constructor
  · norm_num [self_improve, completedOf, aret, isCorrect, mddFold, mddStep, MDD_LIMIT,
      roundTo, List.filter, List.countP, List.countP.go, Int.floor_eq_iff]
  · norm_num

/-- C6 (amended): when `self_improve` proceeds, the correct count splits
into the BUY-with-gain and SELL-with-loss counts (so HOLD entries only
ever reach the denominator), accuracy is that count over all completed
entries, and every feature weight is multiplied by 1.10 / 0.90 / 1.00
according to the accuracy bands — with the product rounded to 3 decimal
places — and no weight is ever reset. -/
theorem self_improve_weight_update (st : EvolutionState) (ledger : List LedgerEntry)
    (h : 5 ≤ (completedOf ledger).length) :
    (completedOf ledger).countP isCorrect =
      (completedOf ledger).countP (fun t => decide (t.decision = "BUY" ∧ 0 < aret t)) +
      (completedOf ledger).countP (fun t => decide (t.decision = "SELL" ∧ aret t < 0)) ∧
    (∀ t ∈ completedOf ledger, t.decision = "HOLD" → isCorrect t = false) ∧
    (self_improve st ledger).1.feature_weights =
      st.feature_weights.map (fun p => (p.1, roundTo 3 (p.2 *
        (if 6/10 < ((completedOf ledger).countP isCorrect : ℚ) /
            ((completedOf ledger).length : ℚ) then 11/10
         else if ((completedOf ledger).countP isCorrect : ℚ) /
            ((completedOf ledger).length : ℚ) < 4/10 then 9/10
         else 1)))) := by
  refine ⟨?_, ?_, ?_⟩
  · induction (completedOf ledger) with
    | nil => rfl
    | cons a l ih =>
      simp only [List.countP_cons, ih, isCorrect]
      by_cases hb : a.decision = "BUY" <;> by_cases hs : a.decision = "SELL" <;>
        by_cases hp : 0 < aret a <;> by_cases hn : aret a < 0 <;>
        simp_all <;> omega
  · intro t _ hd
    simp [isCorrect, hd]
  · unfold self_improve
    rw [if_neg (by omega)]

/-- Witness for C6: from the default all-1.0 weights and a ledger of five
winning BUY trades (accuracy 1.0), every weight becomes 1.1. -/
theorem self_improve_weight_update_witness :
    (self_improve init_evolution
      [⟨"A", "BUY", 1/2, 0, some (1/10)⟩, ⟨"A", "BUY", 1/2, 0, some (1/10)⟩,
       ⟨"A", "BUY", 1/2, 0, some (1/10)⟩, ⟨"A", "BUY", 1/2, 0, some (1/10)⟩,
       ⟨"A", "BUY", 1/2, 0, some (1/10)⟩]).1.feature_weights =
      ALL_FEATURES.map (fun f => (f, 11/10)) := by
  have h := (self_improve_weight_update init_evolution
    [⟨"A", "BUY", 1/2, 0, some (1/10)⟩, ⟨"A", "BUY", 1/2, 0, some (1/10)⟩,
     ⟨"A", "BUY", 1/2, 0, some (1/10)⟩, ⟨"A", "BUY", 1/2, 0, some (1/10)⟩,
     ⟨"A", "BUY", 1/2, 0, some (1/10)⟩] (by decide)).2.2
  rw [h]
  norm_num [init_evolution, completedOf, aret, isCorrect, List.filter, List.countP,
    List.countP.go, roundTo, Int.floor_eq_iff, ALL_FEATURES, BASE_FEATURES, COMBO_FEATURES]

/-- C7: after a proceeding `self_improve`, the new active-feature set is
recomputed purely from the updated weight map — the previous active set is
discarded (two states differing only in `active_features` yield identical
new active sets) — and from the default state (all weights 1.0,
`MA20_sent_combo` initially inactive) the combo feature is active after one
proceeding call whatever the accuracy, because its updated weight
(1.1, 1.0 or 0.9) stays above the 0.30 floor. -/
theorem self_improve_active_features :
    (∀ (st : EvolutionState) (ledger : List LedgerEntry) (act : List String),
      5 ≤ (completedOf ledger).length →
      (self_improve { st with active_features := act } ledger).1.active_features =
        (self_improve st ledger).1.active_features) ∧
    (∀ ledger : List LedgerEntry, 5 ≤ (completedOf ledger).length →
      "MA20_sent_combo" ∈ (self_improve init_evolution ledger).1.active_features) := by
  constructor
  · intro st ledger act h
    unfold self_improve
    rw [if_neg (by omega), if_neg (by omega)]
  · intro ledger h
    unfold self_improve
    rw [if_neg (by omega)]
    simp only [init_evolution]
    have hif : ∀ (P : Prop) (inst : Decidable P) (l : List String),
        "MA20_sent_combo" ∈ l →
        "MA20_sent_combo" ∈ (if P then l ++ ["MA20_sent_combo"] else l) := by
      intro P inst l hl
      split <;> simp [hl]
    apply hif
    set acc : ℚ :=
      ((completedOf ledger).countP isCorrect : ℚ) / ((completedOf ledger).length : ℚ)
      with hacc
    have hsc : (if 6/10 < acc then (11 : ℚ)/10 else if acc < 4/10 then 9/10 else 1) = 11/10 ∨
        (if 6/10 < acc then (11 : ℚ)/10 else if acc < 4/10 then 9/10 else 1) = 9/10 ∨
        (if 6/10 < acc then (11 : ℚ)/10 else if acc < 4/10 then 9/10 else 1) = 1 := by
      split_ifs <;> simp
    set sc : ℚ := (if 6/10 < acc then (11 : ℚ)/10 else if acc < 4/10 then 9/10 else 1)
      with hsc2
    rcases hsc with h1 | h1 | h1 <;> rw [h1] <;>
      norm_num [ALL_FEATURES, BASE_FEATURES, COMBO_FEATURES, roundTo, Int.floor_eq_iff,
        List.filter]

/-- Witness for C7: on a concrete five-entry ledger with accuracy 0 (all
BUY trades losing, so accuracy ≤ 0.55), the combo feature is active after
the first proceeding call from the default state. -/
theorem self_improve_active_features_witness :
    "MA20_sent_combo" ∈ (self_improve init_evolution
      [⟨"A", "BUY", 1/2, 0, some (-1/10)⟩, ⟨"A", "BUY", 1/2, 0, some (-1/10)⟩,
       ⟨"A", "BUY", 1/2, 0, some (-1/10)⟩, ⟨"A", "BUY", 1/2, 0, some (-1/10)⟩,
       ⟨"A", "BUY", 1/2, 0, some (-1/10)⟩]).1.active_features :=
  self_improve_active_features.2
    [⟨"A", "BUY", 1/2, 0, some (-1/10)⟩, ⟨"A", "BUY", 1/2, 0, some (-1/10)⟩,
     ⟨"A", "BUY", 1/2, 0, some (-1/10)⟩, ⟨"A", "BUY", 1/2, 0, some (-1/10)⟩,
     ⟨"A", "BUY", 1/2, 0, some (-1/10)⟩] (by decide)

/-- C8: over the last 60 rows, `_expected_return` computes `AvgGain` as the
mean of the strictly positive 1-day returns (0.001 when there are none),
`AvgLoss` as the mean absolute value of the non-positive 1-day returns
(0.001 when there are none; the source's `abs(down.mean())` equals the mean
of absolute values because every element is non-positive), and returns
`E[R] = p_up·AvgGain − (1−p_up)·AvgLoss`; at `p_up = 0.7` on a table whose
window has `AvgGain = 0.02` and `AvgLoss = 0.01`, `E[R] = 0.011` exactly. -/
theorem expected_return_spec (closes : List ℚ) (p_up : ℚ) (_hlen : 2 ≤ closes.length) :
    ((rets1d (closes.drop (closes.length - AVG_WINDOW))).filter (fun r => 0 < r) ≠ [] →
      (expected_return closes p_up).1 =
        ((rets1d (closes.drop (closes.length - AVG_WINDOW))).filter (fun r => 0 < r)).sum /
        ((rets1d (closes.drop (closes.length - AVG_WINDOW))).filter
          (fun r => 0 < r)).length) ∧
    ((rets1d (closes.drop (closes.length - AVG_WINDOW))).filter (fun r => 0 < r) = [] →
      (expected_return closes p_up).1 = 1/1000) ∧
    ((rets1d (closes.drop (closes.length - AVG_WINDOW))).filter (fun r => r ≤ 0) ≠ [] →
      (expected_return closes p_up).2.1 =
        (((rets1d (closes.drop (closes.length - AVG_WINDOW))).filter (fun r => r ≤ 0)).map
          (fun r => |r|)).sum /
        ((rets1d (closes.drop (closes.length - AVG_WINDOW))).filter
          (fun r => r ≤ 0)).length) ∧
    ((rets1d (closes.drop (closes.length - AVG_WINDOW))).filter (fun r => r ≤ 0) = [] →
      (expected_return closes p_up).2.1 = 1/1000) ∧
    (expected_return closes p_up).2.2 =
      p_up * (expected_return closes p_up).1 -
      (1 - p_up) * (expected_return closes p_up).2.1 ∧
    expected_return [100, 102, 5049/50] (7/10) = (1/50, 1/100, 11/1000) := by
  have key : ∀ l : List ℚ, ∀ r ∈ l.filter (fun r => r ≤ 0), r ≤ 0 := by
    intro l r hr
    simpa using (List.mem_filter.mp hr).2
  refine ⟨?_, ?_, ?_, ?_, ?_, ?_⟩
  · intro hne
    simp only [expected_return]
    rw [if_pos (by simpa [List.length_eq_zero] using hne)]
  · intro heq
    simp only [expected_return]
    rw [if_neg (by simp [heq])]
  · intro hne
    simp only [expected_return]
    rw [if_pos (by simpa [List.length_eq_zero] using hne), abs_div,
      sum_abs_of_nonpos _ (key _)]
    congr 1
    rw [abs_of_nonneg (by positivity)]
  · intro heq
    simp only [expected_return]
    rw [if_neg (by simp [heq])]
  · rfl
  · norm_num [expected_return, rets1d, AVG_WINDOW, List.filter, abs_of_nonneg,
      abs_of_nonpos]

/-- Witness for C8: the concrete `E[R] = 0.011` evaluation. -/
theorem expected_return_spec_witness :
    expected_return [100, 102, 5049/50] (7/10) = (1/50, 1/100, 11/1000) :=
  (expected_return_spec [100, 102, 5049/50] (7/10) (by decide)).2.2.2.2.2

/-- C9: `train_and_select` fails with an `InsufficientTrainingData`-class
error exactly when fewer than 120 training rows are supplied or the
training labels hold fewer than 2 distinct classes, and in that case the
result does not depend on the model-fitting stage at all (no candidate is
fitted, and the error carries no metrics). -/
theorem train_and_select_guard
    (fitA fitB : List (List ℚ) → List ℤ → List (List ℚ) → List ℤ →
      List (String × ModelMetrics))
    (Xtr : List (List ℚ)) (ytr : List ℤ) (Xva : List (List ℚ)) (yva : List ℤ) :
    ((∃ e, train_and_select fitA Xtr ytr Xva yva = .error e ∧
        e.isInsufficientTrainingData = true) ↔
      (Xtr.length < MIN_TRAIN ∨ ytr.dedup.length < 2)) ∧
    ((Xtr.length < MIN_TRAIN ∨ ytr.dedup.length < 2) →
      train_and_select fitA Xtr ytr Xva yva = train_and_select fitB Xtr ytr Xva yva) := by
  unfold train_and_select
  constructor
  · constructor
    · rintro ⟨e, he, hi⟩
      by_contra hc
      push_neg at hc
      rw [if_neg (by omega), if_neg (by omega)] at he
      rcases hfit : fitA Xtr ytr Xva yva with _ | ⟨m, ms⟩ <;> rw [hfit] at he
      · cases he
        simp [TrainError.isInsufficientTrainingData] at hi
      · cases he
    · rintro (hlt | hlt)
      · exact ⟨.insufficientRows Xtr.length, by rw [if_pos hlt], rfl⟩
      · by_cases hrow : Xtr.length < MIN_TRAIN
        · exact ⟨.insufficientRows Xtr.length, by rw [if_pos hrow], rfl⟩
        · exact ⟨.singleClassLabels, by rw [if_neg hrow, if_pos hlt], rfl⟩
  · rintro (hlt | hlt)
    · rw [if_pos hlt, if_pos hlt]
    · by_cases hrow : Xtr.length < MIN_TRAIN
      · rw [if_pos hrow, if_pos hrow]
      · rw [if_neg hrow, if_neg hrow, if_pos hlt, if_pos hlt]

/-- Witness for C9: with no training rows, the result is the same whether
the fitting stage would have produced nothing or a candidate. -/
theorem train_and_select_guard_witness :
    train_and_select (fun _x _y _xv _yv => []) [] [] [] [] =
      train_and_select (fun _x _y _xv _yv => [("lr", ⟨1/2, 0, 0⟩)]) [] [] [] [] :=
  (train_and_select_guard (fun _x _y _xv _yv => [])
    (fun _x _y _xv _yv => [("lr", ⟨1/2, 0, 0⟩)]) [] [] [] []).2 (Or.inl (by decide))

/-- C10: with fewer than 5 completed ledger entries, `self_improve` leaves
the whole evolution state unchanged — generation, weights, active features,
MDD tracker (conservative mode included) and performance history — and does
not persist anything (the written-to-disk flag is `false`). -/
theorem self_improve_skip_below_five (st : EvolutionState) (ledger : List LedgerEntry)
    (h : (completedOf ledger).length < 5) :
    self_improve st ledger = (st, false) := by
  unfold self_improve
  rw [if_pos h]

/-- Witness for C10: an empty ledger (and also a four-entry completed one)
changes nothing. -/
theorem self_improve_skip_below_five_witness :
    self_improve init_evolution
      [⟨"A", "BUY", 1/2, 0, some (1/10)⟩, ⟨"A", "SELL", 1/2, 0, some (1/10)⟩,
       ⟨"A", "HOLD", 1/2, 0, none⟩, ⟨"A", "BUY", 1/2, 0, some (-1/10)⟩,
       ⟨"A", "BUY", 1/2, 0, some 0⟩] = (init_evolution, false) :=
  self_improve_skip_below_five init_evolution
    [⟨"A", "BUY", 1/2, 0, some (1/10)⟩, ⟨"A", "SELL", 1/2, 0, some (1/10)⟩,
     ⟨"A", "HOLD", 1/2, 0, none⟩, ⟨"A", "BUY", 1/2, 0, some (-1/10)⟩,
     ⟨"A", "BUY", 1/2, 0, some 0⟩] (by decide)
